import Mathlib

/-!
Verification of the interactive file selector of project-minifier
(src/minify-code.js and src/build-structure.js, which holds two further
variants of the same selector).  The JavaScript is embedded shallowly:
JS numbers that stay non-negative become `Nat`, JS numbers that can go
negative become `Int`, strings become `String`/`List Char`, and the
selector's mutable fields become explicit state records threaded through
pure step functions.
-/

/-! ## Pattern matcher (isPathIgnored, src/minify-code.js lines 261-268 and
src/build-structure.js lines 381-386 / 868-873)

The source builds a regex from the pattern with a leading caret and a
trailing dollar, after escaping every dot and expanding every star to
dot-star, and tests the whole path.  After the two
replacements every `.` of the pattern is a literal dot and every `*` is
`.*`; for patterns made of letters, digits, `.`, `/`, `_`, `-` and `*`
(the alphabet of the claims and of ordinary ignore files) the resulting
regex is exactly: each non-star character matches itself, each star
matches any (possibly empty) run of non-line-terminator characters, and
the `^`/`$` anchors force a full-string match.  That semantics is
embedded below. -/

/-- Character class matched by an unflagged JS regex `.`: anything except
the four line terminators. -/
def jsDotMatches (c : Char) : Bool :=
  c != '\n' && c != '\r' && c != '\u2028' && c != '\u2029'

/-- One token of the converted pattern: a literal character (a `.` of the
pattern was escaped to a literal dot) or a `*` expanded to `.*`. -/
inductive GlobTok where
  | lit (c : Char)
  | star
  deriving DecidableEq

/-- Tokenisation performed by the two replace calls (dot-escape, then star-expand):
every `*` becomes a wildcard, every other character a literal. -/
def globToTokens (pattern : String) : List GlobTok :=
  pattern.data.map fun c => if c = '*' then GlobTok.star else GlobTok.lit c

/-- Full-string (anchored `^...$`) matching of the converted pattern: a
literal must match the next character, a star matches any run of
non-line-terminator characters. -/
def globMatch : List GlobTok → List Char → Bool
  | [], s => s.isEmpty
  | GlobTok.lit _ :: _, [] => false
  | GlobTok.lit c :: ps, d :: ds => c == d && globMatch ps ds
  | GlobTok.star :: ps, s =>
      (List.range (s.length + 1)).any fun k =>
        (s.take k).all jsDotMatches && globMatch ps (s.drop k)

/-- Source `isPathIgnored`: a path is ignored iff some pattern of the rule
set matches the full path (`Array.prototype.some`). -/
def isPathIgnored (patterns : List String) (filePath : String) : Bool :=
  patterns.any fun pattern => globMatch (globToTokens pattern) filePath.data

/-! ## Gitignore loading (loadGitignore, src/minify-code.js lines 245-258
and src/build-structure.js lines 366-379 / 853-866)

The file read is IO; its outcome is embedded as a `ReadResult` input
(successful content, or an error carrying its `code` the way Node errors
do).  `loadGitignore` never throws: every case yields a rule set and a
flag saying whether the warning branch ran. -/

/-- Whitespace removed by JS `String.prototype.trim` and matched by the
regex class `\s`, restricted to the ASCII range (the source's ignore files
and JSON strings; JS additionally strips rare Unicode spaces). -/
def isJsWhitespace (c : Char) : Bool :=
  c = ' ' || c = '\t' || c = '\n' || c = '\r' || c = '\x0b' || c = '\x0c'

/-- JS `content.split(newline)`: `""` yields `[""]`, a trailing newline
yields a final empty fragment. -/
def splitLines : List Char → List (List Char)
  | [] => [[]]
  | c :: cs =>
      if c = '\n' then [] :: splitLines cs
      else
        match splitLines cs with
        | [] => [[c]]
        | l :: ls => (c :: l) :: ls

/-- JS `line.trim()`: whitespace stripped from both ends. -/
def jsTrim (l : List Char) : List Char :=
  ((l.dropWhile isJsWhitespace).reverse.dropWhile isJsWhitespace).reverse

/-- The filter `line && !line.startsWith(hash)` applied to a trimmed line:
kept iff non-empty and not starting with a `#`. -/
def gitignoreLineKept (l : List Char) : Bool :=
  !l.isEmpty && l.head? != some '#'

/-- The pipeline `ignoreContent.split(newline).map(trim).filter(...)`. -/
def gitignorePatternsOf (content : String) : List String :=
  (((splitLines content.data).map jsTrim).filter gitignoreLineKept).map
    fun l => String.mk l

/-- Outcome of `fs.readFile(GITIGNORE_PATH, utf-8)`: the content, or an
error with its Node `code` (`ENOENT` (as a string) when the file is absent). -/
inductive ReadResult where
  | ok (content : String)
  | err (code : String)

/-- Result of `loadGitignore`: the rule set stored in
`this.gitignorePatterns` and whether the warning `console.error` ran. -/
structure GitignoreLoad where
  patterns : List String
  warned : Bool
  deriving DecidableEq

/-- Source `loadGitignore`: on success the parsed pipeline and no warning;
on failure an empty rule set, warning exactly when `error.code !== ENOENT`.
Totality of this function is the "never throws to the caller" behaviour of
the try/catch. -/
def loadGitignore : ReadResult → GitignoreLoad
  | ReadResult.ok content => { patterns := gitignorePatternsOf content, warned := false }
  | ReadResult.err code => { patterns := [], warned := code != "ENOENT" }

/-! ## Item registry and selection statistics (the `space` and `'a'`
branches of CustomSelect.keypress, src/minify-code.js lines 347-370 and
src/build-structure.js lines 521-564 / 995-1038)

An item is a choice `{ name, enabled }`; `cachedSize` acquisition is the
collaborator read embedded as a `readLen` function (`none` = read error,
whose contribution is skipped). -/

/-- One selectable choice: the path (identity) and its `enabled` flag. -/
structure Choice where
  name : String
  enabled : Bool
  deriving DecidableEq

/-- The `space` branch: `choice.enabled = !choice.enabled` at the cursor
index, guarded by `if (choice)` (an out-of-range index changes nothing). -/
def toggleAt : List Choice → Nat → List Choice
  | [], _ => []
  | c :: cs, 0 => { c with enabled := !c.enabled } :: cs
  | c :: cs, i + 1 => c :: toggleAt cs i

/-- The `'a'` branch (select all): `allSelected = choices.every(c => c.enabled)`
then every flag is set to `!allSelected`. -/
def toggleAll (items : List Bool) : List Bool :=
  let allSelected := items.all fun b => b
  items.map fun _ => !allSelected

/-- `this.selectedFilesCount = this.choices.filter(c => c.enabled).length`. -/
def selectedFilesCount (cs : List Choice) : Nat :=
  (cs.filter fun c => c.enabled).length

/-- `this.totalCharacters`, recomputed from zero over every enabled choice:
each successful read adds the content length, a failed read (`none`) adds
nothing (the error is logged by the collaborator). -/
def totalCharactersOf (readLen : String → Option Nat) (cs : List Choice) : Nat :=
  cs.foldl (fun acc c =>
    if c.enabled then
      match readLen c.name with
      | some len => acc + len
      | none => acc
    else acc) 0

/-- `this.selectedFilesGitignore`, reset to the empty string then overwritten by the
name of each enabled ignored choice in order (so it ends as the last one,
or the empty string when none). -/
def selectedFilesGitignoreOf (patterns : List String) (cs : List Choice) : String :=
  cs.foldl (fun acc c =>
    if c.enabled && isPathIgnored patterns c.name then c.name else acc) ""

/-! ## Cursor navigation

Three keypress handlers exist in the sources.  The grid handler
(src/build-structure.js lines 954-999) drives a `currentColumn` /
`state.index` pair over up to `activeColumns` columns of
`itemsPerColumn = Math.ceil(n / activeColumns)` items.  The two-column
handler (src/build-structure.js lines 482-520) drives a `column`
('left'/'right') / `state.index` pair split at `midPoint = Math.ceil(n/2)`.
The minify-code handler (src/minify-code.js lines 330-346) implements only
the right/left column switch in the repository (up/down delegate to the
enquirer library). -/

/-- A cursor-motion key. -/
inductive NavKey where
  | up
  | down
  | left
  | right
  deriving DecidableEq

/-- `Math.ceil(n / cols)` for `cols ≥ 1` (the source always divides by
`activeColumns ≥ 1`). -/
def itemsPerColumn (n cols : Nat) : Nat := (n + cols - 1) / cols

/-- Cursor state of the grid selector: `this.currentColumn` and
`this.state.index`. -/
structure NavState where
  currentColumn : Nat
  index : Nat
  deriving DecidableEq

/-- The grid keypress handler, src/build-structure.js lines 954-994:
down/up move within the current column's index range, right/left move to
the adjacent column keeping `currentRow = index % itemsPerColumn` and
clamping the new index with `Math.min(newColumnStart + currentRow, n - 1)`. -/
def gridKeypress (n cols : Nat) (s : NavState) (k : NavKey) : NavState :=
  let ipc := itemsPerColumn n cols
  let currentColumnStart := s.currentColumn * ipc
  let currentRow := s.index % ipc
  match k with
  | NavKey.down =>
      if s.index < currentColumnStart + ipc - 1 ∧ s.index < n - 1 then
        { s with index := s.index + 1 }
      else s
  | NavKey.up =>
      if currentColumnStart < s.index then { s with index := s.index - 1 } else s
  | NavKey.right =>
      if s.currentColumn < cols - 1 then
        let c := s.currentColumn + 1
        { currentColumn := c, index := min (c * ipc + currentRow) (n - 1) }
      else s
  | NavKey.left =>
      if 0 < s.currentColumn then
        let c := s.currentColumn - 1
        { currentColumn := c, index := min (c * ipc + currentRow) (n - 1) }
      else s

/-- A whole key sequence through the grid handler. -/
def gridRun (n cols : Nat) (s : NavState) (ks : List NavKey) : NavState :=
  ks.foldl (gridKeypress n cols) s

/-- Cursor state of the two-column selector: `this.column` being "left" and
`this.state.index`. -/
structure TwoColState where
  isLeftColumn : Bool
  index : Nat
  deriving DecidableEq

/-- The two-column keypress handler, src/build-structure.js lines 488-520:
down and up bound the index by the current column's range
(`maxLeftRows = midPoint`), right/left switch columns and clamp
(`Math.min(index, maxLeftRows - 1)` going left; going right the index is
raised to `midPoint` if below it then clamped with
`Math.min(index, n - 1)`). -/
def twoColKeypress (n : Nat) (s : TwoColState) (k : NavKey) : TwoColState :=
  let midPoint := (n + 1) / 2
  match k with
  | NavKey.down =>
      if s.isLeftColumn ∧ s.index < midPoint - 1 then { s with index := s.index + 1 }
      else if ¬s.isLeftColumn = true ∧ s.index < n - 1 then { s with index := s.index + 1 }
      else s
  | NavKey.up =>
      if (if s.isLeftColumn then 0 else midPoint) < s.index then
        { s with index := s.index - 1 }
      else s
  | NavKey.left =>
      if ¬s.isLeftColumn = true then
        { isLeftColumn := true, index := min s.index (midPoint - 1) }
      else s
  | NavKey.right =>
      if s.isLeftColumn then
        let i1 := if s.index < midPoint then midPoint else s.index
        { isLeftColumn := false, index := min i1 (n - 1) }
      else s

/-- A whole key sequence through the two-column handler. -/
def twoColRun (n : Nat) (s : TwoColState) (ks : List NavKey) : TwoColState :=
  ks.foldl (twoColKeypress n) s

/-- Cursor state of the minify-code selector: `this.column` being "left" and
`this.state.index`. -/
structure MCState where
  isLeftColumn : Bool
  index : Nat
  deriving DecidableEq

/-- The minify-code right/left branch, src/minify-code.js lines 331-346:
the column flag toggles; if the new column is "right" and the current row
exists there the index moves to `midPoint + rowIndex`, else if the new
column is "left" the index becomes `rowIndex` (right and left keys act
identically). -/
def mcColumnSwitch (n : Nat) (s : MCState) : MCState :=
  let midPoint := (n + 1) / 2
  let isLeftColumn := s.index < midPoint
  let rowIndex := if isLeftColumn then s.index else s.index - midPoint
  let newIsLeft := !s.isLeftColumn
  if newIsLeft = false ∧ rowIndex < n - midPoint then
    { isLeftColumn := newIsLeft, index := midPoint + rowIndex }
  else if newIsLeft = true then
    { isLeftColumn := newIsLeft, index := rowIndex }
  else
    { s with isLeftColumn := newIsLeft }

/-! ## Layout and resize (CustomSelect constructor and render,
src/build-structure.js lines 836-851, 842-851 and 875-952)

The resize listener runs `updateTerminalDimensions(); render()`.  The only
selector-state mutations `render` performs are the index clamp
`if (index >= choices.length) index = choices.length - 1` and the
`visibleStart` window adjustment; both are embedded here.  The index is an
`Int` because the clamp is `length - 1 = -1` when the list is empty.  Two
JS-only behaviours are noted rather than computed: with zero items
`itemsPerColumn` is `0`, so `index % itemsPerColumn` is a modulo by zero
(NaN; here `Int.emod` by zero leaves the index), and when
`currentColumn ≥ activeColumns` the access `columns[currentColumn].length`
throws a TypeError before any mutation, embedded as returning the state
unchanged. -/

/-- Selector state touched by a resize: cursor column and linear index,
the enabled flags, the scroll window start and the stored dimensions. -/
structure SelectorState where
  currentColumn : Nat
  index : Int
  enabled : List Bool
  visibleStart : Int
  terminalWidth : Nat
  terminalHeight : Nat
  deriving DecidableEq

/-- `updateTerminalDimensions`: stores `process.stdout.columns || 80` and
`process.stdout.rows || 24` (the `||` turns 0/undefined into the default). -/
def updateTerminalDimensions (w h : Nat) (s : SelectorState) : SelectorState :=
  { s with terminalWidth := if w = 0 then 80 else w,
           terminalHeight := if h = 0 then 24 else h }

/-- `this.visibleRows = Math.max(1, this.terminalHeight - 4)`. -/
def visibleRows (s : SelectorState) : Nat := max 1 (s.terminalHeight - 4)

/-- `this.activeColumns = Math.min(this.maxColumns, Math.max(1,
Math.floor(this.terminalWidth / 100)))` with `maxColumns = 5`. -/
def activeColumns (s : SelectorState) : Nat :=
  min 5 (max 1 (s.terminalWidth / 100))

/-- The render's cursor clamp, src/build-structure.js lines 912-914:
`if (this.state.index >= this.choices.length) this.state.index =
this.choices.length - 1` (which is `-1` for an empty list). -/
def renderClampIndex (n : Nat) (idx : Int) : Int :=
  if (n : Int) ≤ idx then (n : Int) - 1 else idx

/-- `const innerWidth = this.terminalWidth - 2` (render line 877); a
negative value makes `cliBoxes.round.top.repeat(innerWidth)` throw a
RangeError in JS. -/
def innerWidthOf (terminalWidth : Nat) : Int := (terminalWidth : Int) - 2

/-- The state mutations of the grid render, src/build-structure.js lines
899-921: column slices, the cursor clamp, and the `visibleStart` window
adjustment and clamp. -/
def renderMutate (s : SelectorState) : SelectorState :=
  let n := s.enabled.length
  let ac := activeColumns s
  let ipc := itemsPerColumn n ac
  let columns := (List.range ac).map fun i => (s.enabled.drop (i * ipc)).take ipc
  let maxColumnHeight := columns.foldl (fun m col => max m col.length) 0
  let listHeight := min maxColumnHeight (visibleRows s)
  if s.currentColumn < ac then
    let maxRows := (columns.getD s.currentColumn []).length
    let idx1 := renderClampIndex n s.index
    let localIndex := idx1 % (ipc : Int)
    let vs1 :=
      if localIndex < s.visibleStart then localIndex
      else if s.visibleStart + (listHeight : Int) ≤ localIndex then
        localIndex - (listHeight : Int) + 1
      else s.visibleStart
    let vs2 := max 0 (min vs1 ((maxRows : Int) - (listHeight : Int)))
    { s with index := idx1, visibleStart := vs2 }
  else
    s

/-- The resize listener, src/build-structure.js lines 836-840:
`this.updateTerminalDimensions(); this.render();`. -/
def resizeEvent (w h : Nat) (s : SelectorState) : SelectorState :=
  renderMutate (updateTerminalDimensions w h s)

/-! ## Minified output (minifyAndSave and readFiles, src/minify-code.js
lines 102-108 and 485-496)

`minifyAndSave` serialises the path-to-content map with `JSON.stringify`
and then replaces every whitespace run of the serialized text by one
space before
writing it.  `JSON.stringify` is embedded for the object-of-strings shape
`readFiles` produces; the whitespace replacement collapses every maximal
run of `\s` characters into one space. -/

/-- Lower-case hexadecimal digit for a value below 16, as JSON.stringify
renders control-character escapes. -/
def jsonHexDigit (n : Nat) : Char :=
  if n < 10 then Char.ofNat (48 + n) else Char.ofNat (87 + n)

/-- JSON.stringify's escaping of one character inside a string literal:
quote, backslash and the named control escapes, a four-digit unicode
escape for the other control characters, the character itself
otherwise. -/
def jsonEscapeChar (c : Char) : List Char :=
  if c = '\"' then ['\\', '\"']
  else if c = '\\' then ['\\', '\\']
  else if c = '\n' then ['\\', 'n']
  else if c = '\t' then ['\\', 't']
  else if c = '\r' then ['\\', 'r']
  else if c = '\x08' then ['\\', 'b']
  else if c = '\x0c' then ['\\', 'f']
  else if c.toNat < 32 then
    let hi := jsonHexDigit (c.toNat / 16)
    let lo := jsonHexDigit (c.toNat % 16)
    '\\' :: 'u' :: '0' :: '0' :: hi :: [lo]
  else [c]

/-- A JSON string literal: quote, escaped characters, quote. -/
def jsonQuote (s : String) : List Char :=
  '\"' :: (s.data.map jsonEscapeChar).flatten ++ ['\"']

/-- `JSON.stringify(code)` for the object `readFiles` returns: its keys
are the paths in order, its values the file contents. -/
def jsonStringifyPairs (pairs : List (String × String)) : String :=
  String.mk ('\x7b' ::
    List.intercalate [','] (pairs.map fun kv => jsonQuote kv.1 ++ ':' :: jsonQuote kv.2)
    ++ ['\x7d'])

/-- The whitespace replacement applied to codeJSON: every maximal run of whitespace
characters becomes a single space. -/
def collapseWs : List Char → List Char
  | [] => []
  | [c] => if isJsWhitespace c then [' '] else [c]
  | c :: d :: rest =>
      if isJsWhitespace c && isJsWhitespace d then collapseWs (d :: rest)
      else (if isJsWhitespace c then ' ' else c) :: collapseWs (d :: rest)

/-- The text `minifyAndSave` writes to `project-code.min.json`. -/
def minifiedOutput (pairs : List (String × String)) : String :=
  String.mk (collapseWs (jsonStringifyPairs pairs).data)

/-- Consistency of the grid cursor state, from the spec's CursorState
invariant: the linear index is in range and the tracked column is
`floor(selectedIndex / itemsPerColumn)`. -/
def navConsistent (n cols : Nat) (s : NavState) : Prop :=
  s.index < n ∧ s.currentColumn = s.index / itemsPerColumn n cols

instance (n cols : Nat) (s : NavState) : Decidable (navConsistent n cols s) := by
  unfold navConsistent; infer_instance

/-! ## Claim theorems -/

/-- Claim C1 counterexample: the claim states that with rule set `["*.env"]`
matching the path `".env"` is false; in the code the converted regex
`^.*\.env$` matches `".env"` (the `.*` matches the empty prefix), so
`isPathIgnored` returns true there. -/
theorem C1_dotenv_counterexample : isPathIgnored ["*.env"] ".env" = true := by
  decide

/-- Claim C1 (amended): under the glob-to-regex translation of `isPathIgnored`
(literal dots escaped, `*` expanded to `.*`, the regex anchored `^...$`,
full-string match, a path ignored iff some pattern matches), rule set
`["*.env"]` matches `".env"` (true, not false as claimed); rule set
`["secrets/*"]` matches `"secrets/keys.json"` and does not match
`"other/secrets/keys.json"`. -/
theorem C1_glob_anchoring :
    isPathIgnored ["*.env"] ".env" = true ∧
    isPathIgnored ["secrets/*"] "secrets/keys.json" = true ∧
    isPathIgnored ["secrets/*"] "other/secrets/keys.json" = false := by
  decide

/-- Claim C5 counterexample: the claim also cites the minify-code handler
(src/minify-code.js lines 331-346), and there, with 7 items
(`midPoint = 4`, columns of 4 and 3), a right press at linear index 3 does
not clamp to index 6: the branch guard `rowIndex < n - midPoint` is
`3 < 3`, false, and the left branch does not apply either, so the index
stays 3 — the cursor is left stranded in the first column with only the
column flag flipped. -/
theorem C5_stranded_counterexample :
    mcColumnSwitch 7 { isLeftColumn := true, index := 3 } =
      { isLeftColumn := false, index := 3 } ∧
    (mcColumnSwitch 7 { isLeftColumn := true, index := 3 }).index ≠ 6 := by
  decide

/-- Claim C5 (amended): with 7 items in 2 columns (`itemsPerColumn = 4`,
columns of 4 and 3 items), pressing right at row 3 of column 1 (linear
index 3): the grid handler of build-structure lands the cursor in column
2 clamped to the last item, linear index 6, in range; the minify-code
handler instead leaves the linear index at 3 — in range, but stranded in
the first column with only the column marker flipped — because row 3 does
not exist in the 3-item second column and that branch moves the cursor
only when the row exists there. -/
theorem C5_right_clamps_to_last :
    itemsPerColumn 7 2 = 4 ∧
    gridKeypress 7 2 { currentColumn := 0, index := 3 } NavKey.right =
      { currentColumn := 1, index := 6 } ∧
    6 < 7 ∧
    mcColumnSwitch 7 { isLeftColumn := true, index := 3 } =
      { isLeftColumn := false, index := 3 } ∧
    3 < 7 := by
  decide

/-- Claim C8 (supporting the code bug): with 0 items the render's cursor clamp
sets `state.index` to `choices.length - 1 = -1`, a negative cursor index,
and `itemsPerColumn = Math.ceil(0 / activeColumns) = 0`, so
`localIndex = index % itemsPerColumn` is a modulo by zero; and with
terminal width 1 the border width `innerWidth = 1 - 2 = -1` is negative,
so `top.repeat(innerWidth)` throws a RangeError instead of rendering. -/
theorem C8_zero_items_geometry :
    renderClampIndex 0 0 = -1 ∧
    renderClampIndex 0 0 < 0 ∧
    itemsPerColumn 0 1 = 0 ∧
    innerWidthOf 1 = -1 ∧
    innerWidthOf 1 < 0 := by
  decide

/-- Claim C4 counterexample, in both cited handlers.  Grid handler: with
5 items and 4 active columns (`itemsPerColumn = 2`, so column 4 is
empty), three right presses from the valid start `(column 0, index 0)`
leave the handler at `currentColumn = 3` while the cursor index is
clamped to 4, and `floor(4 / 2) = 2 ≠ 3`.  Minify-code handler: with 3
items (`midPoint = 2`, both columns non-empty), a right press from the
consistent state `(left, index 1)` flips the column marker to the right
column while leaving the index at 1, which is still in the left half
(`floor(1 / 2) = 0`): the marker points at a different column than the
one containing the linear index even though no column is empty. -/
theorem C4_column_marker_counterexample :
    (gridRun 5 4 { currentColumn := 0, index := 0 }
      [NavKey.right, NavKey.right, NavKey.right] =
      { currentColumn := 3, index := 4 } ∧
     itemsPerColumn 5 4 = 2 ∧
     ¬ (3 = 4 / itemsPerColumn 5 4)) ∧
    (mcColumnSwitch 3 { isLeftColumn := true, index := 1 } =
      { isLeftColumn := false, index := 1 } ∧
     (3 + 1) / 2 = 2 ∧
     1 < (3 + 1) / 2 ∧
     1 / ((3 + 1) / 2) = 0) := by
  decide

/-! ### Helper lemmas -/

/-- Toggling the same position twice restores the choice list. -/
theorem toggleAt_toggleAt (cs : List Choice) (i : Nat) :
    toggleAt (toggleAt cs i) i = cs := by
  induction cs generalizing i with
  | nil => rfl
  | cons c cs ih =>
    cases i with
    | zero => simp [toggleAt]
    | succ n => simp [toggleAt, ih]

/-- One grid keypress keeps the linear index below the item count. -/
theorem gridKeypress_index_lt (n cols : Nat) (s : NavState) (k : NavKey)
    (hn : 0 < n) (h : s.index < n) : (gridKeypress n cols s k).index < n := by
  cases k <;> simp only [gridKeypress] <;> split_ifs <;> (try dsimp only) <;> omega

/-- One two-column keypress keeps the linear index below the item count. -/
theorem twoColKeypress_index_lt (n : Nat) (s : TwoColState) (k : NavKey)
    (hn : 0 < n) (h : s.index < n) : (twoColKeypress n s k).index < n := by
  cases k <;> simp only [twoColKeypress] <;> split_ifs <;> (try dsimp only) <;> omega

/-- One minify-code column switch keeps the linear index below the item
count. -/
theorem mcColumnSwitch_index_lt (n : Nat) (s : MCState)
    (h : s.index < n) : (mcColumnSwitch n s).index < n := by
  simp only [mcColumnSwitch]
  split_ifs <;> (try dsimp only) <;> omega

/-- Any grid key sequence keeps the linear index below the item count. -/
theorem gridRun_index_lt (n cols : Nat) (hn : 0 < n) :
    ∀ (ks : List NavKey) (s : NavState), s.index < n → (gridRun n cols s ks).index < n := by
  intro ks
  induction ks with
  | nil => intro s h; exact h
  | cons k ks ih =>
    intro s h
    exact ih (gridKeypress n cols s k) (gridKeypress_index_lt n cols s k hn h)

/-- Any two-column key sequence keeps the linear index below the item
count. -/
theorem twoColRun_index_lt (n : Nat) (hn : 0 < n) :
    ∀ (ks : List NavKey) (s : TwoColState), s.index < n → (twoColRun n s ks).index < n := by
  intro ks
  induction ks with
  | nil => intro s h; exact h
  | cons k ks ih =>
    intro s h
    exact ih (twoColKeypress n s k) (twoColKeypress_index_lt n s k hn h)

/-- Any number of minify-code column switches keeps the linear index below
the item count. -/
theorem mcSwitchIter_index_lt (n : Nat) (k : Nat) :
    ∀ (s : MCState), s.index < n → (((mcColumnSwitch n)^[k]) s).index < n := by
  induction k with
  | zero => intro s h; exact h
  | succ k ih =>
    intro s h
    rw [Function.iterate_succ_apply]
    exact ih (mcColumnSwitch n s) (mcColumnSwitch_index_lt n s h)

/-- Claim C3: for every non-empty item list, a valid start index and any
finite sequence of up/down/left/right events, the cursor's linear index
stays in `[0, itemCount - 1]` (the lower bound is the type) after each
event, in all three keypress handlers of the sources: the grid handler,
the two-column handler, and the minify-code handler (whose in-repository
navigation branch is the right/left column switch; `presses` is the
number of such presses). -/
theorem C3_cursor_in_bounds (n cols : Nat) (s3 : NavState) (s2 : TwoColState)
    (s1 : MCState) (ks3 ks2 : List NavKey) (presses : Nat)
    (hn : 0 < n) (h3 : s3.index < n) (h2 : s2.index < n) (h1 : s1.index < n) :
    (gridRun n cols s3 ks3).index < n ∧
    (twoColRun n s2 ks2).index < n ∧
    (((mcColumnSwitch n)^[presses]) s1).index < n :=
  ⟨gridRun_index_lt n cols hn ks3 s3 h3,
   twoColRun_index_lt n hn ks2 s2 h2,
   mcSwitchIter_index_lt n presses s1 h1⟩

/-- Claim C3 witness at 7 items, 2 columns and a boundary-crossing key
sequence. -/
theorem C3_cursor_in_bounds_witness :
    (gridRun 7 2 { currentColumn := 0, index := 3 }
      [NavKey.right, NavKey.down, NavKey.down, NavKey.left, NavKey.up]).index < 7 ∧
    (twoColRun 7 { isLeftColumn := true, index := 3 }
      [NavKey.right, NavKey.down, NavKey.down, NavKey.left, NavKey.up]).index < 7 ∧
    (((mcColumnSwitch 7)^[3]) { isLeftColumn := true, index := 3 }).index < 7 :=
  C3_cursor_in_bounds 7 2 { currentColumn := 0, index := 3 }
    { isLeftColumn := true, index := 3 } { isLeftColumn := true, index := 3 }
    [NavKey.right, NavKey.down, NavKey.down, NavKey.left, NavKey.up]
    [NavKey.right, NavKey.down, NavKey.down, NavKey.left, NavKey.up] 3
    (by decide) (by decide) (by decide) (by decide)

/-- Claim C2: `toggleAll` sets every enabled flag to the negation of
whether all items were enabled (stated as the replicate equation holding
for every list), and from a non-uniform mix (some item enabled, some
disabled) the first call enables everything and the second call then
disables everything, regardless of the prior per-item states. -/
theorem C2_toggleAll_strict_toggle (items : List Bool)
    (h1 : true ∈ items) (h2 : false ∈ items) :
    (∀ l : List Bool, toggleAll l = List.replicate l.length (!(l.all fun b => b))) ∧
    toggleAll items = List.replicate items.length true ∧
    toggleAll (toggleAll items) = List.replicate items.length false := by
  have hgen : ∀ l : List Bool, toggleAll l = List.replicate l.length (!(l.all fun b => b)) := by
    intro l
    simp [toggleAll, List.map_const']
  have hall : (items.all fun b => b) = false := by
    rw [List.all_eq_false]
    exact ⟨false, h2, by simp⟩
  have hfst : toggleAll items = List.replicate items.length true := by
    rw [hgen items, hall]
    rfl
  refine ⟨hgen, hfst, ?_⟩
  rw [hgen (toggleAll items), hfst]
  have hlen : (List.replicate items.length true).length = items.length := by simp
  have hall2 : ((List.replicate items.length true).all fun b => b) = true := by
    rw [List.all_eq_true]
    intro x hx
    exact (List.eq_of_mem_replicate hx)
  rw [hlen, hall2]
  rfl

/-- Claim C2 witness at the mixed list `[true, false]`. -/
theorem C2_toggleAll_strict_toggle_witness :
    (∀ l : List Bool, toggleAll l = List.replicate l.length (!(l.all fun b => b))) ∧
    toggleAll [true, false] = List.replicate 2 true ∧
    toggleAll (toggleAll [true, false]) = List.replicate 2 false :=
  C2_toggleAll_strict_toggle [true, false] (by decide) (by decide)

/-- Claim C6: toggling any item twice restores the choice list exactly,
so the selected count, the total characters and the ignored-file warning,
each recomputed from scratch from the enabled set, are numerically
identical to their values before the pair of toggles, for every read
outcome and rule set. -/
theorem C6_double_toggle_restores (cs : List Choice) (i : Nat)
    (readLen : String → Option Nat) (patterns : List String) :
    toggleAt (toggleAt cs i) i = cs ∧
    selectedFilesCount (toggleAt (toggleAt cs i) i) = selectedFilesCount cs ∧
    totalCharactersOf readLen (toggleAt (toggleAt cs i) i) = totalCharactersOf readLen cs ∧
    selectedFilesGitignoreOf patterns (toggleAt (toggleAt cs i) i) =
      selectedFilesGitignoreOf patterns cs := by
  have h := toggleAt_toggleAt cs i
  exact ⟨h, by rw [h], by rw [h], by rw [h]⟩

/-- Claim C4 (amended): after every cursor mutation of the grid handler
the tracked active column equals `floor(selectedIndex / itemsPerColumn)`,
provided every column is non-empty
(`(columnCount - 1) * itemsPerColumn < itemCount`); when trailing columns
are empty a right press can leave the marker on an empty column while the
index clamps into an earlier one, and the also-cited minify-code handler
does not maintain the equality even with non-empty columns — a right
press whose row is missing from the other column flips the marker without
moving the index (both failures are the counterexample theorem). -/
theorem C4_column_tracks_index (n cols : Nat) (s : NavState) (k : NavKey)
    (hcols : 0 < cols) (hfull : (cols - 1) * itemsPerColumn n cols < n)
    (hs : navConsistent n cols s) :
    navConsistent n cols (gridKeypress n cols s k) := by
  obtain ⟨hlt, hcol⟩ := hs
  have hn : 0 < n := Nat.lt_of_le_of_lt (Nat.zero_le _) hfull
  have hipc : 0 < itemsPerColumn n cols := by
    show 1 ≤ _
    unfold itemsPerColumn
    rw [Nat.le_div_iff_mul_le hcols]
    omega
  have hle : n ≤ cols * itemsPerColumn n cols := by
    unfold itemsPerColumn
    have h1 := Nat.div_add_mod (n + cols - 1) cols
    have h2 := Nat.mod_lt (n + cols - 1) hcols
    omega
  unfold navConsistent
  cases k <;>
    simp only [gridKeypress] <;>
    revert hipc hle hfull hcol <;>
    generalize itemsPerColumn n cols = ipc <;>
    intro hfull hcol hipc hle
  all_goals have hq : s.currentColumn * ipc ≤ s.index := by rw [hcol]; exact Nat.div_mul_le_self _ _
  all_goals have hq2 : s.index < s.currentColumn * ipc + ipc := by rw [hcol]; exact Nat.lt_div_mul_add hipc
  all_goals have hmod : s.index % ipc < ipc := Nat.mod_lt s.index hipc
  all_goals have hdm : ipc * (s.index / ipc) + s.index % ipc = s.index := Nat.div_add_mod s.index ipc
  all_goals rw [← hcol] at hdm
  all_goals have hcm : ipc * s.currentColumn = s.currentColumn * ipc := Nat.mul_comm _ _
  all_goals have hqcols : s.currentColumn < cols := by by_contra hcon; push_neg at hcon; have hx : cols * ipc ≤ s.currentColumn * ipc := Nat.mul_le_mul_right ipc hcon; omega
  case down =>
    split_ifs with h
    · dsimp only
      have e1 : (s.currentColumn + 1) * ipc = s.currentColumn * ipc + ipc := by ring
      refine ⟨by omega, (Nat.div_eq_of_lt_le (by omega) (by rw [e1]; omega)).symm⟩
    · exact ⟨hlt, hcol⟩
  case up =>
    split_ifs with h
    · dsimp only
      have e1 : (s.currentColumn + 1) * ipc = s.currentColumn * ipc + ipc := by ring
      refine ⟨by omega, (Nat.div_eq_of_lt_le (by omega) (by rw [e1]; omega)).symm⟩
    · exact ⟨hlt, hcol⟩
  case right =>
    split_ifs with h
    · dsimp only
      have hcle : (s.currentColumn + 1) * ipc ≤ (cols - 1) * ipc :=
        Nat.mul_le_mul_right ipc (by omega)
      have e1 : (s.currentColumn + 1) * ipc = s.currentColumn * ipc + ipc := by ring
      have e3 : (s.currentColumn + 1 + 1) * ipc = (s.currentColumn + 1) * ipc + ipc := by ring
      refine ⟨by omega, (Nat.div_eq_of_lt_le (by omega) (by rw [e3]; omega)).symm⟩
    · exact ⟨hlt, hcol⟩
  case left =>
    split_ifs with h
    · dsimp only
      have hcle : (s.currentColumn - 1) * ipc ≤ (cols - 1) * ipc :=
        Nat.mul_le_mul_right ipc (by omega)
      have e4 : (s.currentColumn - 1 + 1) * ipc = (s.currentColumn - 1) * ipc + ipc := by ring
      have e5 : s.currentColumn * ipc = (s.currentColumn - 1) * ipc + ipc := by
        have h6 : s.currentColumn - 1 + 1 = s.currentColumn := Nat.succ_pred_eq_of_pos h
        calc s.currentColumn * ipc = (s.currentColumn - 1 + 1) * ipc := by rw [h6]
        _ = (s.currentColumn - 1) * ipc + ipc := by ring
      refine ⟨by omega, (Nat.div_eq_of_lt_le (by omega) (by rw [e4]; omega)).symm⟩
    · exact ⟨hlt, hcol⟩

/-- Claim C4 witness: 7 items in 2 non-empty columns, right press from a
consistent state stays consistent. -/
theorem C4_column_tracks_index_witness :
    navConsistent 7 2 (gridKeypress 7 2 { currentColumn := 0, index := 3 } NavKey.right) :=
  C4_column_tracks_index 7 2 { currentColumn := 0, index := 3 } NavKey.right
    (by decide) (by decide) (by decide)

/-- Claim C7: loading the ignore file fails soft.  A missing file
(ENOENT) gives an empty rule set and no warning; any other read error
gives a warning and an empty rule set; on success the rule set is the
split lines trimmed, with empty lines and lines starting with a hash
excluded; `loadGitignore` is total, so loading never throws to the
caller. -/
theorem C7_gitignore_fail_soft (code content l : String)
    (hmem : l ∈ (loadGitignore (ReadResult.ok content)).patterns) :
    loadGitignore (ReadResult.err "ENOENT") = { patterns := [], warned := false } ∧
    (code ≠ "ENOENT" → loadGitignore (ReadResult.err code) = { patterns := [], warned := true }) ∧
    loadGitignore (ReadResult.ok content) =
      { patterns := gitignorePatternsOf content, warned := false } ∧
    (∃ line ∈ splitLines content.data, l = String.mk (jsTrim line)) ∧
    l ≠ "" ∧
    l.data.head? ≠ some '#' := by
  refine ⟨by simp [loadGitignore], ?_, rfl, ?_⟩
  · intro hne
    simp only [loadGitignore, GitignoreLoad.mk.injEq, true_and]
    exact bne_iff_ne.mpr hne
  · simp only [loadGitignore, gitignorePatternsOf] at hmem
    obtain ⟨t, ht, rfl⟩ := List.mem_map.1 hmem
    obtain ⟨ht1, hkept⟩ := List.mem_filter.1 ht
    obtain ⟨line, hline, rfl⟩ := List.mem_map.1 ht1
    rw [gitignoreLineKept, Bool.and_eq_true] at hkept
    obtain ⟨hne, hhash⟩ := hkept
    refine ⟨⟨line, hline, rfl⟩, ?_, ?_⟩
    · intro hcon
      have : jsTrim line = [] := by
        have := congrArg String.data hcon
        simpa using this
      rw [this] at hne
      simp [List.isEmpty] at hne
    · have h2 := bne_iff_ne.mp hhash
      simpa using h2

/-- Claim C7 witness at a concrete ignore file with a comment line, an
empty line and an indented entry. -/
theorem C7_gitignore_fail_soft_witness :
    loadGitignore (ReadResult.err "ENOENT") = { patterns := [], warned := false } ∧
    (("EACCES" : String) ≠ "ENOENT" →
      loadGitignore (ReadResult.err "EACCES") = { patterns := [], warned := true }) ∧
    loadGitignore (ReadResult.ok "node_modules\n#comment\n\n  .env  ") =
      { patterns := gitignorePatternsOf "node_modules\n#comment\n\n  .env  ", warned := false } ∧
    (∃ line ∈ splitLines ("node_modules\n#comment\n\n  .env  " : String).data,
      (".env" : String) = String.mk (jsTrim line)) ∧
    (".env" : String) ≠ "" ∧
    (".env" : String).data.head? ≠ some '#' :=
  C7_gitignore_fail_soft "EACCES" "node_modules\n#comment\n\n  .env  " ".env" (by decide)

/-- A render whose cursor index is already in range leaves the cursor, the
column and the enabled flags unchanged (it only recomputes the visible
window). -/
theorem renderMutate_preserves (s : SelectorState)
    (hidx : s.index < (s.enabled.length : Int)) :
    (renderMutate s).index = s.index ∧
    (renderMutate s).currentColumn = s.currentColumn ∧
    (renderMutate s).enabled = s.enabled := by
  unfold renderMutate
  by_cases hcc : s.currentColumn < activeColumns s
  · rw [if_pos hcc]
    refine ⟨?_, rfl, rfl⟩
    show renderClampIndex s.enabled.length s.index = s.index
    unfold renderClampIndex
    rw [if_neg (not_le.mpr hidx)]
  · rw [if_neg hcc]
    exact ⟨rfl, rfl, rfl⟩

/-- Claim C9: a terminal resize event (new width and height, then the
render's mutations) only recomputes layout dimensions and the visible
window; for every state whose cursor index is in range the linear index,
the active column and every enabled flag are unchanged. -/
theorem C9_resize_preserves_selection (w h : Nat) (s : SelectorState)
    (hidx : s.index < (s.enabled.length : Int)) :
    (resizeEvent w h s).index = s.index ∧
    (resizeEvent w h s).currentColumn = s.currentColumn ∧
    (resizeEvent w h s).enabled = s.enabled :=
  renderMutate_preserves (updateTerminalDimensions w h s) hidx

/-- Claim C9 witness: shrinking a 250-column terminal to 120 columns
leaves index, column and flags unchanged. -/
theorem C9_resize_preserves_selection_witness :
    (resizeEvent 120 10
      { currentColumn := 1, index := 3, enabled := [true, false, true, true, false],
        visibleStart := 0, terminalWidth := 250, terminalHeight := 24 }).index = 3 ∧
    (resizeEvent 120 10
      { currentColumn := 1, index := 3, enabled := [true, false, true, true, false],
        visibleStart := 0, terminalWidth := 250, terminalHeight := 24 }).currentColumn = 1 ∧
    (resizeEvent 120 10
      { currentColumn := 1, index := 3, enabled := [true, false, true, true, false],
        visibleStart := 0, terminalWidth := 250, terminalHeight := 24 }).enabled =
      [true, false, true, true, false] :=
  C9_resize_preserves_selection 120 10
    { currentColumn := 1, index := 3, enabled := [true, false, true, true, false],
      visibleStart := 0, terminalWidth := 250, terminalHeight := 24 } (by decide)

/-- The collapse of a run headed by a non-whitespace character keeps that
character in front. -/
theorem collapseWs_head_of_not_ws (d : Char) (rest : List Char)
    (hd : isJsWhitespace d = false) :
    (collapseWs (d :: rest)).head? = some d := by
  cases rest with
  | nil => simp [collapseWs, hd]
  | cons e r => simp [collapseWs, hd]

/-- After `collapseWs` every whitespace character is a space and no two
adjacent characters are both whitespace: maximal whitespace runs have
become single spaces. -/
theorem collapseWs_wellformed (s : List Char) :
    (∀ c ∈ collapseWs s, isJsWhitespace c = true → c = ' ') ∧
    List.Chain' (fun a b => ¬(isJsWhitespace a = true ∧ isJsWhitespace b = true))
      (collapseWs s) := by
  induction s with
  | nil => simp [collapseWs]
  | cons c tail ih =>
    cases tail with
    | nil =>
      by_cases hc : isJsWhitespace c = true <;> simp [collapseWs, hc]
    | cons d rest =>
      obtain ⟨ih1, ih2⟩ := ih
      by_cases hc : isJsWhitespace c = true
      · by_cases hd : isJsWhitespace d = true
        · have heq : collapseWs (c :: d :: rest) = collapseWs (d :: rest) := by
            simp [collapseWs, hc, hd]
          rw [heq]
          exact ⟨ih1, ih2⟩
        · have heq : collapseWs (c :: d :: rest) = ' ' :: collapseWs (d :: rest) := by
            simp [collapseWs, hc, hd]
          rw [heq]
          constructor
          · intro x hx hwx
            rcases List.mem_cons.1 hx with hx1 | hx2
            · exact hx1
            · exact ih1 x hx2 hwx
          · rw [List.chain'_cons']
            refine ⟨?_, ih2⟩
            intro b hb
            rw [collapseWs_head_of_not_ws d rest (by simp [hd])] at hb
            simp at hb
            subst hb
            intro hcon
            exact hd hcon.2
      · have heq : collapseWs (c :: d :: rest) = c :: collapseWs (d :: rest) := by
          simp [collapseWs, hc]
        rw [heq]
        constructor
        · intro x hx hwx
          rcases List.mem_cons.1 hx with hx1 | hx2
          · subst hx1; exact absurd hwx hc
          · exact ih1 x hx2 hwx
        · rw [List.chain'_cons']
          refine ⟨?_, ih2⟩
          intro b hb
          intro hcon
          exact hc hcon.1

/-- Claim C10 (implicit): the text `minifyAndSave` writes is the JSON
serialization with every maximal whitespace run replaced by one space
(after the replacement every whitespace character is a space and no two
are adjacent), so a double space inside a file content survives
`JSON.stringify` unescaped and is collapsed: the written file for content
`"a  b"` is exactly the serialization of the same map with content
`"a b"`, which differs from the original, so parsing the output does not
reproduce the original content; newlines and tabs are escaped by the
serialization and survive unchanged. -/
theorem C10_minified_output (s : List Char) :
    (∀ c ∈ collapseWs s, isJsWhitespace c = true → c = ' ') ∧
    List.Chain' (fun a b => ¬(isJsWhitespace a = true ∧ isJsWhitespace b = true))
      (collapseWs s) ∧
    minifiedOutput [("p", "a  b")] = jsonStringifyPairs [("p", "a b")] ∧
    ("a b" : String) ≠ "a  b" ∧
    minifiedOutput [("p", "a\nb\tc")] = jsonStringifyPairs [("p", "a\nb\tc")] := by
  obtain ⟨h1, h2⟩ := collapseWs_wellformed s
  exact ⟨h1, h2, by decide, by decide, by decide⟩
